import Mathlib

/-!
Verification of the Aadhar-Pulse batch analytics pipeline
(`src/data_loader.py`, `src/stress_index.py`, `src/models.py`,
`src/recommender.py`) against its natural-language specification.

The pipeline is shallowly embedded: pandas DataFrames become lists of
records, float arithmetic becomes exact arithmetic over `ℚ` (with `ℝ`
only where the code takes a square root), and pandas NaN/absent values
become `Option`.  A pandas frame that is returned unchanged on the empty
branch (keeping its input schema) is modelled with a sum type whose left
summand is the untouched input.
-/

namespace AadharPulse

/-! ## Geography normalization (`data_loader.clean_state_names`)

Python string operations are modelled for the ASCII strings that occur
in state columns: `str.title` uppercases an alphabetic character that
follows a non-alphabetic one and lowercases the rest, `str.strip`
removes leading and trailing whitespace, `str.isnumeric` holds for a
non-empty all-digit string. -/

/-- Character transformation of Python `str.title`: `prevAlpha` records
whether the previous character was alphabetic. -/
def titleChar (prevAlpha : Bool) (c : Char) : Char :=
  if c.isAlpha then (if prevAlpha then c.toLower else c.toUpper) else c

/-- Worker for `pyTitle`, threading the previous-character state. -/
def titleGo : Bool → List Char → List Char
  | _, [] => []
  | prev, c :: cs => titleChar prev c :: titleGo c.isAlpha cs

/-- Python `str.title` (ASCII model). -/
def pyTitle (s : String) : String := ⟨titleGo false s.data⟩

/-- Whitespace characters removed by Python `str.strip`. -/
def isPySpace (c : Char) : Bool := c = ' ' || c = '\t' || c = '\n' || c = '\r'

/-- Python `str.strip` (ASCII whitespace model). -/
def pyStrip (s : String) : String :=
  ⟨((s.data.dropWhile isPySpace).reverse.dropWhile isPySpace).reverse⟩

/-- Python `str.isnumeric` restricted to ASCII digit strings. -/
def pyIsNumeric (s : String) : Bool := !s.data.isEmpty && s.data.all Char.isDigit

/-- Alias table from `clean_state_names` (`data_loader.py` lines 65-80). -/
def aliasMapping : List (String × String) :=
  [("Andaman & Nicobar Islands", "Andaman And Nicobar Islands"),
   ("Dadra & Nagar Haveli", "Dadra And Nagar Haveli"),
   ("Daman & Diu", "Daman And Diu"),
   ("Jammu & Kashmir", "Jammu And Kashmir"),
   ("Orissa", "Odisha"),
   ("Pondicherry", "Puducherry"),
   ("West  Bengal", "West Bengal"),
   ("West Bangal", "West Bengal"),
   ("Westbengal", "West Bengal"),
   ("West Bengli", "West Bengal"),
   ("Chhatisgarh", "Chhattisgarh"),
   ("Tamilnadu", "Tamil Nadu"),
   ("Uttaranchal", "Uttarakhand"),
   ("The Dadra And Nagar Haveli And Daman And Diu",
    "Dadra And Nagar Haveli And Daman And Diu")]

/-- Whitelist of valid states and union territories from
`clean_state_names` (`data_loader.py` lines 86-94). -/
def validStates : List String :=
  ["Andaman And Nicobar Islands", "Andhra Pradesh", "Arunachal Pradesh",
   "Assam", "Bihar", "Chandigarh", "Chhattisgarh", "Dadra And Nagar Haveli",
   "Daman And Diu", "Dadra And Nagar Haveli And Daman And Diu", "Delhi",
   "Goa", "Gujarat", "Haryana", "Himachal Pradesh", "Jammu And Kashmir",
   "Jharkhand", "Karnataka", "Kerala", "Ladakh", "Lakshadweep",
   "Madhya Pradesh", "Maharashtra", "Manipur", "Meghalaya", "Mizoram",
   "Nagaland", "Odisha", "Puducherry", "Punjab", "Rajasthan", "Sikkim",
   "Tamil Nadu", "Telangana", "Tripura", "Uttar Pradesh", "Uttarakhand",
   "West Bengal"]

/-- Normalisation applied to one raw state string before the whitelist
filter: title-case, strip, then the alias table
(`df['state'].astype(str).str.title().str.strip()` followed by
`.replace(mapping)`). -/
def normalizeState (raw : String) : String :=
  (aliasMapping.lookup (pyStrip (pyTitle raw))).getD (pyStrip (pyTitle raw))

/-- Fate of one state string under `clean_state_names`: `none` when the
row is dropped (purely numeric value, or the normalised name is not in
the whitelist), `some canonical` when it is kept. The numeric filter
runs before the alias table, as in the source. -/
def cleanState (raw : String) : Option String :=
  if pyIsNumeric (pyStrip (pyTitle raw)) then none
  else if normalizeState raw ∈ validStates then some (normalizeState raw) else none

/-- One raw CSV row, reduced to the fields `clean_state_names` touches. -/
structure RawRow where
  state : String
  district : String
deriving DecidableEq

/-- Embedding of `clean_state_names`: rows whose state survives the
numeric filter and the whitelist are kept with the canonical state
written back; all other rows are dropped. -/
def clean_state_names (rows : List RawRow) : List RawRow :=
  rows.filterMap fun r => (cleanState r.state).map fun s => { r with state := s }

/-! ## Aggregation and merge (`data_loader.get_monthly_level_data`)

A per-source monthly aggregate is a list of rows keyed by
(month, state, district) carrying that source's metric columns as a
vector of rationals; `ncols` is the number of metric columns of the
source. `pd.concat`/`groupby` details upstream of the merge are out of
scope here; the merge-and-fill step (lines 142-148) is modelled
directly. -/

/-- Join key (month, state, district); months are abstracted to `ℕ`. -/
structure Key where
  month : ℕ
  state : String
  district : String
deriving DecidableEq

/-- One per-source monthly aggregate: metric column count and rows. -/
structure Agg where
  ncols : ℕ
  rows : List (Key × List ℚ)
deriving DecidableEq

/-- Keys present in an aggregate. -/
def aggKeys (a : Agg) : List Key := a.rows.map Prod.fst

/-- Metric vector of an aggregate at a key, after the merge and
`fillna(0)`: a key the aggregate lacks yields one 0 per metric column
(pandas leaves NaN at such keys and `fillna(0)` turns them into 0). -/
def lookupRow (a : Agg) (k : Key) : List ℚ :=
  (a.rows.lookup k).getD (List.replicate a.ncols 0)

/-- One row of the master table after the outer merges and `fillna(0)`. -/
structure MRow where
  key : Key
  enrolM : List ℚ
  demoM : List ℚ
  bioM : List ℚ
deriving DecidableEq

/-- The master table built by the two chained outer merges followed by
`fillna(0)` (`data_loader.py` lines 144-148), collapsed into one pass
over the union of the keys: the two pairwise outer joins on
(month, state, district) produce exactly one row per key of the union,
with a source's columns NaN at keys the source lacks, and `fillna(0)`
replaces those NaN by 0. Key order in the model is first appearance
rather than the sorted order pandas uses; no claim depends on order. -/
def masterRows (ae ad ab : Agg) : List MRow :=
  ((aggKeys ae ++ aggKeys ad ++ aggKeys ab).dedup).map fun k =>
    ⟨k, lookupRow ae k, lookupRow ad k, lookupRow ab k⟩

/-- Embedding of the merge phase of `get_monthly_level_data`, taking the
three per-source aggregates as produced by `aggregate_dataset`: `none`
stands for the bare `pd.DataFrame()` returned for an empty source
(a frame with no columns at all). `pd.DataFrame.merge` with
`on=['month','state','district']` raises `KeyError` when either operand
lacks those columns, so the chain of two merges raises as soon as any of
the three aggregates is the empty frame; only when all three are real
aggregates does it return the merged, zero-filled master table. -/
def get_monthly_level_data (e d b : Option Agg) : Except String (List MRow) :=
  match e, d, b with
  | some ae, some ad, some ab => Except.ok (masterRows ae ad ab)
  | _, _, _ => Except.error "KeyError: month"

/-! ## Stress index (`stress_index.calculate_stress_index`) -/

/-- Row-wise total of the bio-prefixed metric columns
(`df[bio_cols].sum(axis=1)`). -/
def totalBio (r : MRow) : ℚ := r.bioM.sum

/-- Row-wise total of the demo-prefixed metric columns. -/
def totalDemo (r : MRow) : ℚ := r.demoM.sum

/-- Row-wise total of the enrol-prefixed metric columns. -/
def totalEnrol (r : MRow) : ℚ := r.enrolM.sum

/-- Column minimum as computed over a non-empty list (0 for `[]`,
which the `master_df.empty` guard rules out). -/
def listMin : List ℚ → ℚ
  | [] => 0
  | x :: xs => xs.foldl min x

/-- Column maximum, dual to `listMin`. -/
def listMax : List ℚ → ℚ
  | [] => 0
  | x :: xs => xs.foldl max x

/-- sklearn `MinMaxScaler` semantics in exact arithmetic: scaled value
`(x - mn) * scale` where `scale = 1 / (mx - mn)`, except that a zero
range has its scale replaced by 1 (`_handle_zeros_in_scale`), so a
constant column maps every value `x` to `x - mn` (0 for every dataset
value), never NaN. -/
def minmaxNorm (mn mx x : ℚ) : ℚ :=
  if mx = mn then x - mn else (x - mn) / (mx - mn)

/-- Risk tiering of `categorize_risk` (`stress_index.py` lines 62-65):
strict comparisons, first match wins. -/
def categorize_risk (score : ℚ) : String :=
  if score > 80 then "Red" else if score > 50 then "Amber" else "Green"

/-- One row of the scored table. -/
structure ScoredRow where
  key : Key
  total_bio_updates : ℚ
  total_demo_updates : ℚ
  total_enrolments : ℚ
  norm_bio : ℚ
  norm_demo : ℚ
  norm_enrol : ℚ
  stress_score_raw : ℚ
  stress_score : ℚ
  risk_category : String
deriving DecidableEq

/-- Scoring of one master row given the whole master table `m` (the
min-max normalisation is global: its bounds come from the full
dataset). Weights 0.4/0.3/0.3 and the 0-100 scaling follow
`stress_index.py` lines 48-59. -/
def scoreRow (m : List MRow) (r : MRow) : ScoredRow :=
  let nb := minmaxNorm (listMin (m.map totalBio)) (listMax (m.map totalBio)) (totalBio r)
  let nd := minmaxNorm (listMin (m.map totalDemo)) (listMax (m.map totalDemo)) (totalDemo r)
  let nen := minmaxNorm (listMin (m.map totalEnrol)) (listMax (m.map totalEnrol)) (totalEnrol r)
  let raw := 0.4 * nb + 0.3 * nd + 0.3 * nen
  { key := r.key
    total_bio_updates := totalBio r
    total_demo_updates := totalDemo r
    total_enrolments := totalEnrol r
    norm_bio := nb
    norm_demo := nd
    norm_enrol := nen
    stress_score_raw := raw
    stress_score := raw * 100
    risk_category := categorize_risk (raw * 100) }

/-- Embedding of `calculate_stress_index`: the `master_df.empty` guard
returns the input frame itself, unchanged and without any derived
column (left summand); otherwise every row is scored against the global
normalisation bounds (right summand). -/
def calculate_stress_index (m : List MRow) : List MRow ⊕ List ScoredRow :=
  if m.isEmpty then Sum.inl m else Sum.inr (m.map (scoreRow m))

/-! ## Anomaly detection (`models.detect_anomalies`)

Per-district mean and sample standard deviation (pandas default
`ddof=1`) of `stress_score`; `stds.replace(0, 1)` guards an exactly-zero
std, which in exact arithmetic happens iff the sample variance is 0.
A district with a single row has undefined (NaN) sample std, which the
`replace` does not touch: its z-score is NaN, modelled as `none`; a NaN
float comparison `abs > 2.0` is false, so the flag stays off there. -/

/-- Arithmetic mean of a list of rationals. -/
def mean (xs : List ℚ) : ℚ := xs.sum / xs.length

/-- Sample variance with `ddof = 1` (pandas `std` squared), defined for
lists with at least two elements. -/
def sampleVarVal (xs : List ℚ) : ℚ :=
  ((xs.map fun x => (x - mean xs) ^ 2).sum) / ((xs.length : ℚ) - 1)

/-- Sample variance as pandas produces it: NaN (`none`) below two
observations. -/
def sampleVar (xs : List ℚ) : Option ℚ :=
  if xs.length < 2 then none else some (sampleVarVal xs)

/-- Denominator of the z-score after `stds.replace(0, 1)`: the sample
std `Real.sqrt v`, with 1 substituted when the std is exactly zero,
i.e. when the variance `v` is zero. -/
noncomputable def stdGuard (v : ℚ) : ℝ :=
  if v = 0 then 1 else Real.sqrt (v : ℝ)

/-- z-score of one observation against its district history, as
computed by `models.py` line 54: NaN (`none`) when the sample std is
NaN, otherwise the deviation from the mean over the guarded std. -/
noncomputable def zScore (xs : List ℚ) (x : ℚ) : Option ℝ :=
  (sampleVar xs).map fun v => ((x - mean xs : ℚ) : ℝ) / stdGuard v

/-- Anomaly flag of `models.py` line 57: `df['z_score'].abs() > 2.0`.
A NaN z-score compares false. -/
def anomalyFlag : Option ℝ → Prop
  | none => False
  | some z => |z| > 2

/-- One row of the scored table as `detect_anomalies` reads it: the
function only touches the `district` and `stress_score` columns. -/
structure SRow where
  district : String
  stress_score : ℚ
deriving DecidableEq

/-- Stress scores of all rows of the frame sharing a district, in frame
order (`df.groupby('district')['stress_score']` via `transform`). -/
def peerScores (df : List SRow) (dist : String) : List ℚ :=
  (df.filter fun s => decide (s.district = dist)).map SRow.stress_score

/-- One row of the analyzed table: the scored columns plus `z_score`
(`none` = NaN) and `is_anomaly`. -/
structure ARow where
  district : String
  stress_score : ℚ
  z_score : Option ℝ
  is_anomaly : Prop

/-- Analysis of one row against the whole frame. -/
noncomputable def analyzeRow (df : List SRow) (r : SRow) : ARow :=
  { district := r.district
    stress_score := r.stress_score
    z_score := zScore (peerScores df r.district) r.stress_score
    is_anomaly := anomalyFlag (zScore (peerScores df r.district) r.stress_score) }

/-- The analyzed table for a non-empty frame. -/
noncomputable def detectRows (df : List SRow) : List ARow :=
  df.map (analyzeRow df)

/-- Embedding of `detect_anomalies`: the `df.empty` guard returns the
input frame unchanged and without the derived columns (left summand);
otherwise the frame gains `z_score` and `is_anomaly` (right summand). -/
noncomputable def detect_anomalies (df : List SRow) : List SRow ⊕ List ARow :=
  if df.isEmpty then Sum.inl df else Sum.inr (detectRows df)

/-! ## Recommendations (`recommender.generate_recommendations`)

Row values are read with `row.get(col, 0)` and the three `norm_*`
values additionally pass a `pd.isna` check that maps NaN to 0; a
missing-or-NaN value is modelled as `none` and read through `getD 0`.
The code omits the `isna` check for `stress_score`, but a NaN float
fails `> 70` exactly as 0 does, so `none`/`getD 0` is also its
behaviour. -/

/-- One input row as the recommender reads it. -/
structure RRow where
  state : String
  district : String
  month : ℕ
  norm_enrol : Option ℚ
  norm_bio : Option ℚ
  norm_demo : Option ℚ
  stress_score : Option ℚ
deriving DecidableEq

/-- One output recommendation record. -/
structure RecRow where
  state : String
  district : String
  month : ℕ
  recommendations : String
deriving DecidableEq

/-- The action strings accumulated by the four `if` rules of
`recommender.py` lines 35-45, in source order; every matching rule
appends. -/
def ruleActions (r : RRow) : List String :=
  (if r.norm_enrol.getD 0 > 0.5 then
    ["Deploy Mobile Enrolment Camps (High New Enrolments)"] else []) ++
  (if r.norm_bio.getD 0 > 0.5 then
    ["Initiate School/Center-based Biometric Update Drive (High Bio Load)"] else []) ++
  (if r.norm_demo.getD 0 > 0.5 then
    ["Increase Demographic Update Capacity (High Correction Volume)"] else []) ++
  (if r.stress_score.getD 0 > 70 then
    ["URGENT: Allocate Special Budget for Capacity Expansion"] else [])

/-- The `recommendations` field for one row: the default action when no
rule fired, else the accumulated strings joined by a semicolon and a
space. -/
def recLine (r : RRow) : String :=
  String.intercalate "; "
    (if ruleActions r = [] then ["Maintain Current Operations"] else ruleActions r)

/-- The output record appended for one input row. -/
def recOf (r : RRow) : RecRow :=
  { state := r.state, district := r.district, month := r.month
    recommendations := recLine r }

/-- Embedding of `generate_recommendations`: the `df.empty` guard
returns a bare `pd.DataFrame()` with no columns at all, modelled by the
left summand `Unit`; otherwise one output row per input row. -/
def generate_recommendations (df : List RRow) : Unit ⊕ List RecRow :=
  if df.isEmpty then Sum.inl () else Sum.inr (df.map recOf)

/-! ## Heap effects of the three downstream stages

Each Python function receives a reference to the caller's frame; the
pair below is (returned value, state of the caller's frame after the
call). `calculate_stress_index` copies its input before writing
(`df = master_df.copy()`, `stress_index.py` line 19), and
`generate_recommendations` only reads its input, so both leave the
argument untouched. `detect_anomalies` assigns the new columns directly
on the frame it was passed (`df['z_score'] = ...`, `models.py` lines
54-57) and returns that same frame, so after the call the caller's
frame IS the returned analyzed frame. -/

/-- Effect form of `calculate_stress_index`: result plus the argument
frame after the call (unchanged, thanks to the copy). -/
def calculate_stress_index_st (m : List MRow) :
    (List MRow ⊕ List ScoredRow) × List MRow :=
  (calculate_stress_index m, m)

/-- Effect form of `detect_anomalies`: the function writes the derived
columns into the frame it was passed and returns it, so the argument
after the call equals the returned frame. -/
noncomputable def detect_anomalies_st (d : List SRow) :
    (List SRow ⊕ List ARow) × (List SRow ⊕ List ARow) :=
  (detect_anomalies d, detect_anomalies d)

/-- Effect form of `generate_recommendations`: result plus the argument
frame after the call (only read, never written). -/
def generate_recommendations_st (df : List RRow) :
    (Unit ⊕ List RecRow) × List RRow :=
  (generate_recommendations df, df)

/-! ## Helper lemmas on column minima and maxima -/

lemma foldl_min_le_init (l : List ℚ) : ∀ a : ℚ, l.foldl min a ≤ a := by
  induction l with
  | nil => intro a; exact le_refl a
  | cons x t ih => intro a; exact le_trans (ih (min a x)) (min_le_left a x)

lemma foldl_min_le_mem (l : List ℚ) : ∀ a x : ℚ, x ∈ l → l.foldl min a ≤ x := by
  induction l with
  | nil => intro a x hx; cases hx
  | cons y t ih =>
    intro a x hx
    rcases List.mem_cons.mp hx with h | h
    · subst h; exact le_trans (foldl_min_le_init t (min a x)) (min_le_right a x)
    · exact ih (min a y) x h

lemma init_le_foldl_max (l : List ℚ) : ∀ a : ℚ, a ≤ l.foldl max a := by
  induction l with
  | nil => intro a; exact le_refl a
  | cons x t ih => intro a; exact le_trans (le_max_left a x) (ih (max a x))

lemma mem_le_foldl_max (l : List ℚ) : ∀ a x : ℚ, x ∈ l → x ≤ l.foldl max a := by
  induction l with
  | nil => intro a x hx; cases hx
  | cons y t ih =>
    intro a x hx
    rcases List.mem_cons.mp hx with h | h
    · subst h; exact le_trans (le_max_right a x) (init_le_foldl_max t (max a x))
    · exact ih (max a y) x h

lemma listMin_le_of_mem {xs : List ℚ} {x : ℚ} (h : x ∈ xs) : listMin xs ≤ x := by
  cases xs with
  | nil => cases h
  | cons y t =>
    rcases List.mem_cons.mp h with h | h
    · subst h; exact foldl_min_le_init t x
    · exact foldl_min_le_mem t y x h

lemma le_listMax_of_mem {xs : List ℚ} {x : ℚ} (h : x ∈ xs) : x ≤ listMax xs := by
  cases xs with
  | nil => cases h
  | cons y t =>
    rcases List.mem_cons.mp h with h | h
    · subst h; exact init_le_foldl_max t x
    · exact mem_le_foldl_max t y x h

/-- Everything the spec asserts of one normalised column value: range
[0,1]; with spread, the dataset maximum maps to 1 and the minimum to 0;
a constant column maps to 0, never NaN. -/
def ColNormOk (vals : List ℚ) (tot norm : ℚ) : Prop :=
  (0 ≤ norm ∧ norm ≤ 1)
  ∧ (listMin vals ≠ listMax vals →
      (tot = listMax vals → norm = 1) ∧ (tot = listMin vals → norm = 0))
  ∧ (listMin vals = listMax vals → norm = 0)

lemma colNormOk_of_mem {vals : List ℚ} {x : ℚ} (hx : x ∈ vals) :
    ColNormOk vals x (minmaxNorm (listMin vals) (listMax vals) x) := by
  have hmin := listMin_le_of_mem hx
  have hmax := le_listMax_of_mem hx
  by_cases h : listMax vals = listMin vals
  · have hx0 : x = listMin vals := le_antisymm (h ▸ hmax) hmin
    refine ⟨?_, fun hne => absurd h.symm hne, fun _ => ?_⟩ <;>
      simp [minmaxNorm, if_pos h, hx0]
  · have hlt : listMin vals < listMax vals :=
      lt_of_le_of_ne (le_trans hmin hmax) (fun e => h e.symm)
    have hpos : (0 : ℚ) < listMax vals - listMin vals := sub_pos.mpr hlt
    have hnorm : minmaxNorm (listMin vals) (listMax vals) x =
        (x - listMin vals) / (listMax vals - listMin vals) := by
      simp [minmaxNorm, if_neg h]
    refine ⟨⟨?_, ?_⟩, fun _ => ⟨fun hxmax => ?_, fun hxmin => ?_⟩, fun he => absurd he.symm h⟩
    · rw [hnorm]
      exact div_nonneg (sub_nonneg.mpr hmin) (le_of_lt hpos)
    · rw [hnorm, div_le_one hpos]
      exact sub_le_sub_right hmax _
    · rw [hnorm, hxmax]
      exact div_self (ne_of_gt hpos)
    · rw [hnorm, hxmin, sub_self, zero_div]

/-! ## C1: risk categorization thresholds -/

/-- Counterexample to C1 as stated: the claim (and the spec's boundary
table) says a stress score of exactly 50.0 is categorized "Amber", but
`categorize_risk` uses strict comparisons, so 50 falls through both
strict tests and lands in "Green". -/
theorem categorize_risk_at_fifty_is_green :
    categorize_risk 50 = "Green" ∧ categorize_risk 50 ≠ "Amber" := by
  constructor <;> decide

/-- C1 (amended): every scored record's `risk_category` is computed from
its `stress_score` by the strict first-match-wins cascade of
`categorize_risk`; the boundary values behave as: 80.0 is "Amber",
80.01 is "Red", 50.0 is "Green" (the lower tier at the 50 boundary),
49.99 is "Green". -/
theorem risk_category_from_stress_score :
    (∀ (m : List MRow) (out : List ScoredRow) (r : ScoredRow),
        calculate_stress_index m = Sum.inr out → r ∈ out →
          r.risk_category = categorize_risk r.stress_score)
    ∧ (∀ s : ℚ, categorize_risk s =
        if s > 80 then "Red" else if s > 50 then "Amber" else "Green")
    ∧ categorize_risk 80 = "Amber" ∧ categorize_risk (8001/100) = "Red"
    ∧ categorize_risk 50 = "Green" ∧ categorize_risk (4999/100) = "Green" := by
  refine ⟨?_, fun s => rfl, by norm_num [categorize_risk], by norm_num [categorize_risk],
    by norm_num [categorize_risk], by norm_num [categorize_risk]⟩
  intro m out r hcalc hr
  unfold calculate_stress_index at hcalc
  by_cases hm : m.isEmpty
  · rw [if_pos hm] at hcalc; cases hcalc
  · rw [if_neg hm] at hcalc
    obtain rfl : m.map (scoreRow m) = out := by injection hcalc
    obtain ⟨s, _, rfl⟩ := List.mem_map.mp hr
    rfl

/-- Concrete one-row master table used by the C1 witness. -/
def mC1 : List MRow := [⟨⟨0, "Assam", "Dist"⟩, [1], [2], [3]⟩]

/-- Witness for C1 at a concrete one-row master table. -/
theorem risk_category_from_stress_score_witness :
    (scoreRow mC1 ⟨⟨0, "Assam", "Dist"⟩, [1], [2], [3]⟩).risk_category =
      categorize_risk
        (scoreRow mC1 ⟨⟨0, "Assam", "Dist"⟩, [1], [2], [3]⟩).stress_score := by
  exact risk_category_from_stress_score.1 mC1 (mC1.map (scoreRow mC1)) _ rfl
    (List.mem_map_of_mem _ (by simp [mC1]))

/-! ## C2: global min-max normalization -/

/-- Everything C2 asserts of one scored record against the master table
it came from. -/
def NormOk (m : List MRow) (r : ScoredRow) : Prop :=
  ColNormOk (m.map totalBio) r.total_bio_updates r.norm_bio
  ∧ ColNormOk (m.map totalDemo) r.total_demo_updates r.norm_demo
  ∧ ColNormOk (m.map totalEnrol) r.total_enrolments r.norm_enrol

/-- C2: for a non-empty master table, each of the three normalised
columns of every scored record lies in [0,1]; when a column has spread,
rows achieving the dataset maximum get 1 and rows achieving the minimum
get 0; a zero-variance column normalises to 0 for every row, never to
NaN. The normalisation bounds are those of the entire dataset `m`. -/
theorem stress_index_normalization_ok
    (m : List MRow) (out : List ScoredRow) (r : ScoredRow)
    (hcalc : calculate_stress_index m = Sum.inr out) (hr : r ∈ out) :
    NormOk m r := by
  unfold calculate_stress_index at hcalc
  by_cases hm : m.isEmpty
  · rw [if_pos hm] at hcalc; cases hcalc
  · rw [if_neg hm] at hcalc
    obtain rfl : m.map (scoreRow m) = out := by injection hcalc
    obtain ⟨s, hs, rfl⟩ := List.mem_map.mp hr
    exact ⟨colNormOk_of_mem (List.mem_map_of_mem totalBio hs),
      colNormOk_of_mem (List.mem_map_of_mem totalDemo hs),
      colNormOk_of_mem (List.mem_map_of_mem totalEnrol hs)⟩

/-- Concrete two-row master table with spread used by the C2 witness. -/
def mC2 : List MRow :=
  [⟨⟨0, "Assam", "A"⟩, [1], [1], [1]⟩, ⟨⟨1, "Assam", "B"⟩, [3], [1], [2]⟩]

/-- Witness for C2 at a concrete two-row master table with spread. -/
theorem stress_index_normalization_ok_witness :
    NormOk mC2 (scoreRow mC2 ⟨⟨1, "Assam", "B"⟩, [3], [1], [2]⟩) := by
  exact stress_index_normalization_ok mC2 (mC2.map (scoreRow mC2)) _ rfl
    (List.mem_map_of_mem _ (by simp [mC2]))

/-! ## C3: outer-merge completeness -/

lemma lookup_eq_none_of_not_mem {k : Key} {rows : List (Key × List ℚ)}
    (h : k ∉ rows.map Prod.fst) : rows.lookup k = none := by
  induction rows with
  | nil => rfl
  | cons p t ih =>
    have hne : (k == p.1) = false := by
      refine beq_eq_false_iff_ne.mpr fun e => h ?_
      simp [e]
    have ht : k ∉ t.map Prod.fst := fun e => h (by simp [e])
    simp only [List.lookup, hne]
    exact ih ht

lemma masterRows_key {ae ad ab : Agg} {r : MRow}
    (hr : r ∈ masterRows ae ad ab) :
    r = ⟨r.key, lookupRow ae r.key, lookupRow ad r.key, lookupRow ab r.key⟩ := by
  obtain ⟨k, _, rfl⟩ := List.mem_map.mp hr
  rfl

/-- C3: whenever the merge succeeds (all three aggregates are real
frames), every key present in at least one per-source aggregate has
exactly one master row, and each metric block coming from a source that
lacks the key is a vector of exact zeros of that source's width
(`fillna(0)`), never a null value. -/
theorem master_merge_completeness
    (ae ad ab : Agg) (master : List MRow) (k : Key) (r : MRow)
    (hmaster : get_monthly_level_data (some ae) (some ad) (some ab) = Except.ok master)
    (hk : k ∈ aggKeys ae ∨ k ∈ aggKeys ad ∨ k ∈ aggKeys ab)
    (hr : r ∈ master) (hkey : r.key = k) :
    ((master.filter fun row => decide (row.key = k)).length = 1)
    ∧ (k ∉ aggKeys ae → r.enrolM = List.replicate ae.ncols 0)
    ∧ (k ∉ aggKeys ad → r.demoM = List.replicate ad.ncols 0)
    ∧ (k ∉ aggKeys ab → r.bioM = List.replicate ab.ncols 0) := by
  obtain rfl : masterRows ae ad ab = master := by injection hmaster
  have hkmem : k ∈ (aggKeys ae ++ aggKeys ad ++ aggKeys ab).dedup := by
    rw [List.mem_dedup]
    rcases hk with h | h | h <;> simp [h]
  refine ⟨?_, ?_, ?_, ?_⟩
  · unfold masterRows
    rw [List.filter_map, List.length_map]
    show ((((aggKeys ae ++ aggKeys ad ++ aggKeys ab).dedup).filter
      fun x => decide (x = k)).length) = 1
    rw [← List.countP_eq_length_filter]
    exact List.count_eq_one_of_mem (List.nodup_dedup _) hkmem
  · intro habs
    rw [masterRows_key hr]
    simp only [hkey]
    unfold lookupRow aggKeys at *
    rw [lookup_eq_none_of_not_mem habs, Option.getD_none]
  · intro habs
    rw [masterRows_key hr]
    simp only [hkey]
    unfold lookupRow aggKeys at *
    rw [lookup_eq_none_of_not_mem habs, Option.getD_none]
  · intro habs
    rw [masterRows_key hr]
    simp only [hkey]
    unfold lookupRow aggKeys at *
    rw [lookup_eq_none_of_not_mem habs, Option.getD_none]

/-- Concrete aggregates for the C3 witness: the key is present in the
enrolment and demographic aggregates, absent from the biometric one. -/
def aeC3 : Agg := ⟨1, [(⟨0, "Assam", "A"⟩, [5])]⟩

/-- Demographic aggregate for the C3 witness. -/
def adC3 : Agg := ⟨2, [(⟨0, "Assam", "A"⟩, [7, 8])]⟩

/-- Biometric aggregate for the C3 witness: no rows. -/
def abC3 : Agg := ⟨1, []⟩

/-- Witness for C3: the key appears once in the merged master table and
the absent biometric source contributes an exact-zero metric vector. -/
theorem master_merge_completeness_witness :
    (((masterRows aeC3 adC3 abC3).filter
        fun row => decide (row.key = ⟨0, "Assam", "A"⟩)).length = 1)
    ∧ ((⟨0, "Assam", "A"⟩ : Key) ∉ aggKeys aeC3 →
        (⟨⟨0, "Assam", "A"⟩, [5], [7, 8], [0]⟩ : MRow).enrolM = List.replicate aeC3.ncols 0)
    ∧ ((⟨0, "Assam", "A"⟩ : Key) ∉ aggKeys adC3 →
        (⟨⟨0, "Assam", "A"⟩, [5], [7, 8], [0]⟩ : MRow).demoM = List.replicate adC3.ncols 0)
    ∧ ((⟨0, "Assam", "A"⟩ : Key) ∉ aggKeys abC3 →
        (⟨⟨0, "Assam", "A"⟩, [5], [7, 8], [0]⟩ : MRow).bioM = List.replicate abC3.ncols 0) := by
  exact master_merge_completeness aeC3 adC3 abC3 (masterRows aeC3 adC3 abC3)
    ⟨0, "Assam", "A"⟩ ⟨⟨0, "Assam", "A"⟩, [5], [7, 8], [0]⟩ rfl
    (Or.inl (by simp [aeC3, aggKeys]))
    (by simp [masterRows, aeC3, adC3, abC3, aggKeys, lookupRow, List.lookup, List.dedup])
    rfl

/-! ## C8: a single absent source crashes the merge -/

/-- C8: the spec requires that one unreadable/absent source degrade to
an all-zero contribution with the pipeline continuing, fatal only when
all three sources are absent. The code does the opposite: an absent
source makes `aggregate_dataset` return a bare `pd.DataFrame()` with no
columns, and the outer merge on `['month','state','district']` then
raises `KeyError` even though the other two sources loaded data. The
theorem evaluates the embedded merge at that failing input: enrolment
and biometric aggregates have data, the demographic source is absent,
and the resultis an error, not a master table. -/
theorem missing_single_source_is_fatal :
    get_monthly_level_data
        (some ⟨1, [(⟨0, "Assam", "A"⟩, [5])]⟩) none
        (some ⟨1, [(⟨0, "Assam", "A"⟩, [3])]⟩)
      = Except.error "KeyError: month" := rfl

/-! ## C4: recommendation rule engine -/

set_option maxRecDepth 8000 in
/-- C4: for every input row the four rules are evaluated in fixed
source order with every matching rule appending its action string (the
output list is exactly `map recOf`); missing/NaN component values read
as 0; the joined `recommendations` string is never empty; the spec's
boundary examples evaluate to their exact strings, with an all-fire row
accumulating all four actions in rule order. -/
theorem recommendations_rule_engine :
    (∀ (df : List RRow) (out : List RecRow),
        generate_recommendations df = Sum.inr out → out = df.map recOf)
    ∧ (∀ r : RRow, recLine r ≠ "")
    ∧ (∀ (st di : String) (mo : ℕ),
        recLine ⟨st, di, mo, none, none, none, none⟩ =
          recLine ⟨st, di, mo, some 0, some 0, some 0, some 0⟩)
    ∧ recLine ⟨"S", "D", 0, some 0.6, some 0.2, some 0.2, some 75⟩ =
        "Deploy Mobile Enrolment Camps (High New Enrolments); URGENT: Allocate Special Budget for Capacity Expansion"
    ∧ recLine ⟨"S", "D", 0, some 1, some 1, some 1, some 100⟩ =
        "Deploy Mobile Enrolment Camps (High New Enrolments); Initiate School/Center-based Biometric Update Drive (High Bio Load); Increase Demographic Update Capacity (High Correction Volume); URGENT: Allocate Special Budget for Capacity Expansion"
    ∧ recLine ⟨"S", "D", 0, some 0.2, some 0, some 0, some 10⟩ =
        "Maintain Current Operations" := by
  have hex1 : ruleActions ⟨"S", "D", 0, some 0.6, some 0.2, some 0.2, some 75⟩ =
      ["Deploy Mobile Enrolment Camps (High New Enrolments)",
       "URGENT: Allocate Special Budget for Capacity Expansion"] := by
    unfold ruleActions
    norm_num [Option.getD_some]
  have hex2 : ruleActions ⟨"S", "D", 0, some 1, some 1, some 1, some 100⟩ =
      ["Deploy Mobile Enrolment Camps (High New Enrolments)",
       "Initiate School/Center-based Biometric Update Drive (High Bio Load)",
       "Increase Demographic Update Capacity (High Correction Volume)",
       "URGENT: Allocate Special Budget for Capacity Expansion"] := by
    unfold ruleActions
    norm_num [Option.getD_some]
  have hex3 : ruleActions ⟨"S", "D", 0, some 0.2, some 0, some 0, some 10⟩ = [] := by
    unfold ruleActions
    norm_num [Option.getD_some]
  refine ⟨?_, ?_, ?_, ?_, ?_, ?_⟩
  · intro df out h
    unfold generate_recommendations at h
    by_cases hdf : df.isEmpty
    · rw [if_pos hdf] at h; cases h
    · rw [if_neg hdf] at h; injection h with h; exact h.symm
  · intro r
    unfold recLine ruleActions
    split_ifs <;> first | decide | simp_all
  · intro st di mo; rfl
  · simp only [recLine, hex1]
    decide
  · simp only [recLine, hex2]
    decide
  · simp only [recLine, hex3]
    decide

/-- Witness for C4 at a concrete one-row frame. -/
theorem recommendations_rule_engine_witness :
    [recOf ⟨"S", "D", 0, some 0.6, some 0.2, some 0.2, some 75⟩] =
      [⟨"S", "D", 0, some 0.6, some 0.2, some 0.2, some 75⟩].map recOf := by
  exact recommendations_rule_engine.1
    [⟨"S", "D", 0, some 0.6, some 0.2, some 0.2, some 75⟩]
    [recOf ⟨"S", "D", 0, some 0.6, some 0.2, some 0.2, some 75⟩] rfl

/-! ## C5: geography normalization and whitelist -/

/-- Counterexample to C5 as stated: the claim speaks of "a fixed
36-entry whitelist", but the whitelist of `clean_state_names` has 38
entries (it includes the pre-merger UTs Dadra And Nagar Haveli and
Daman And Diu alongside their merged successor and Ladakh). -/
theorem whitelist_has_38_entries :
    validStates.length = 38 ∧ validStates.length ≠ 36 := by
  constructor <;> decide

lemma cleanState_mem_validStates {s out : String}
    (h : cleanState s = some out) : out ∈ validStates := by
  unfold cleanState at h
  split_ifs at h with h1 h2
  · injection h with h; exact h ▸ h2

/-- C5 (amended): `clean_state_names` keeps exactly the rows whose
state, after title-casing, trimming, the purely-numeric filter and the
alias table, lands in the fixed 38-entry whitelist: every surviving
row's state is in the whitelist; one state string survives iff it is
non-numeric and normalises into the whitelist, and then the canonical
name is kept; "123" is dropped, "Orissa" becomes "Odisha" and is kept,
"Mumbai" is dropped. -/
theorem clean_state_names_whitelist :
    (∀ (rows : List RawRow) (r : RawRow),
        r ∈ clean_state_names rows → r.state ∈ validStates)
    ∧ (∀ s out : String, cleanState s = some out ↔
        (pyIsNumeric (pyStrip (pyTitle s)) = false ∧ out = normalizeState s
          ∧ out ∈ validStates))
    ∧ cleanState "123" = none ∧ cleanState "Orissa" = some "Odisha"
    ∧ cleanState "Mumbai" = none ∧ validStates.length = 38 := by
  refine ⟨?_, ?_, by decide, by decide, by decide, by decide⟩
  · intro rows r hr
    obtain ⟨r0, _, heq⟩ := List.mem_filterMap.mp hr
    obtain ⟨s, hs, hmap⟩ := Option.map_eq_some'.mp heq
    have := cleanState_mem_validStates hs
    rw [← hmap]
    exact this
  · intro s out
    unfold cleanState normalizeState
    constructor
    · intro h
      split_ifs at h with h1 h2
      · injection h with h
        exact ⟨by simpa using h1, h.symm, h ▸ h2⟩
    · rintro ⟨h1, rfl, h3⟩
      rw [if_neg (by simp [h1]), if_pos h3]

/-- Witness for C5: a surviving row's state is in the whitelist. -/
theorem clean_state_names_whitelist_witness :
    (⟨"Odisha", "X"⟩ : RawRow).state ∈ validStates := by
  exact clean_state_names_whitelist.1 [⟨"Orissa", "X"⟩] ⟨"Odisha", "X"⟩ (by decide)

/-! ## C6: z-score guard -/

/-- Counterexample to C6 as stated: the claim says a district with
fewer than 2 historical points gets a defined z-score (its deviation
from the mean, 0 here) through the zero-guard. In the code the sample
std of a single observation is NaN, `replace(0, 1)` does not touch NaN,
and the division propagates it: the z_score column holds NaN (`none`),
not the defined deviation. -/
theorem single_point_district_zscore_nan :
    (detectRows [⟨"Solo", 10⟩]).map ARow.z_score = [none]
    ∧ (none : Option ℝ) ≠ some (((10 : ℚ) - mean [10] : ℚ) : ℝ) := by
  exact ⟨rfl, by simp⟩

/-- Everything the amended C6 asserts of one analyzed record against
the frame it came from: with at least two district observations the
z-score is the deviation over the zero-guarded sample std and the flag
holds iff the absolute z-score strictly exceeds 2; with fewer than two
observations the sample std is NaN, the z-score is NaN (`none`, not a
defined number), and the flag is off. -/
def AnomalyOk (df : List SRow) (r : ARow) : Prop :=
  (2 ≤ (peerScores df r.district).length →
      r.z_score = some (((r.stress_score - mean (peerScores df r.district) : ℚ) : ℝ) /
        stdGuard (sampleVarVal (peerScores df r.district)))
      ∧ (r.is_anomaly ↔ ∃ z : ℝ, r.z_score = some z ∧ |z| > 2))
  ∧ ((peerScores df r.district).length < 2 → r.z_score = none ∧ ¬ r.is_anomaly)

/-- C6 (amended): every record of the analyzed table satisfies
`AnomalyOk`: z-scores follow the (deviation / zero-guarded sample std)
formula and the strict two-sigma rule whenever the district has at
least two points; a district with a single point yields a NaN z-score
(undefined, contrary to the original claim) while its anomaly flag
still stays off because a NaN comparison is false. -/
theorem detect_anomalies_zscore_guard
    (df : List SRow) (out : List ARow) (r : ARow)
    (h : detect_anomalies df = Sum.inr out) (hr : r ∈ out) : AnomalyOk df r := by
  unfold detect_anomalies at h
  by_cases hdf : df.isEmpty
  · rw [if_pos hdf] at h; cases h
  · rw [if_neg hdf] at h
    obtain rfl : detectRows df = out := by injection h
    obtain ⟨s, _, rfl⟩ := List.mem_map.mp hr
    simp only [analyzeRow, AnomalyOk]
    constructor
    · intro hlen
      have hv : sampleVar (peerScores df s.district) =
          some (sampleVarVal (peerScores df s.district)) := by
        unfold sampleVar
        rw [if_neg (not_lt.mpr hlen)]
      unfold zScore
      rw [hv, Option.map_some']
      refine ⟨rfl, ?_⟩
      constructor
      · intro h2; exact ⟨_, rfl, h2⟩
      · rintro ⟨z, hz, h2⟩
        cases Option.some.inj hz
        exact h2
    · intro hlt
      have hv : sampleVar (peerScores df s.district) = none := by
        unfold sampleVar
        rw [if_pos hlt]
      unfold zScore
      rw [hv, Option.map_none']
      exact ⟨rfl, fun h2 => h2⟩

/-- Witness for C6 at a one-row frame: the single-point district branch
of `AnomalyOk` holds of the analyzed record, whose z-score is `none`. -/
theorem detect_anomalies_zscore_guard_witness :
    AnomalyOk [⟨"Solo", 10⟩] ⟨"Solo", 10, none, False⟩ := by
  exact detect_anomalies_zscore_guard [⟨"Solo", 10⟩] (detectRows [⟨"Solo", 10⟩])
    ⟨"Solo", 10, none, False⟩ rfl (List.mem_singleton.mpr rfl)

/-! ## C7: the spec's anomaly boundary example -/

/-- The spec's example district history: stress scores
10, 10, 10, 10, 90 in one district. -/
def rows5 : List SRow := [⟨"D", 10⟩, ⟨"D", 10⟩, ⟨"D", 10⟩, ⟨"D", 10⟩, ⟨"D", 90⟩]

lemma rows5_peers : peerScores rows5 "D" = [10, 10, 10, 10, 90] := rfl

lemma rows5_var : sampleVar ([10, 10, 10, 10, 90] : List ℚ) = some 1280 := by
  unfold sampleVar sampleVarVal mean
  norm_num

lemma abs_div_sqrt_le_two {x v : ℝ} (hv : 0 < v) (h : x ^ 2 ≤ 4 * v) :
    |x / Real.sqrt v| ≤ 2 := by
  have hs : 0 < Real.sqrt v := Real.sqrt_pos.mpr hv
  rw [abs_div, abs_of_pos hs, div_le_iff₀ hs]
  have h3 : Real.sqrt (4 * v) = 2 * Real.sqrt v := by
    rw [show (4 : ℝ) * v = 2 ^ 2 * v by norm_num, Real.sqrt_mul (by positivity) v,
      Real.sqrt_sq (by norm_num : (0 : ℝ) ≤ 2)]
  calc |x| = Real.sqrt (x ^ 2) := (Real.sqrt_sq_eq_abs x).symm
    _ ≤ Real.sqrt (4 * v) := Real.sqrt_le_sqrt h
    _ = 2 * Real.sqrt v := h3

lemma zscore_rows5 (x : ℚ) :
    zScore [10, 10, 10, 10, 90] x = some (((x - 26 : ℚ) : ℝ) / Real.sqrt 1280) := by
  unfold zScore
  rw [rows5_var, Option.map_some']
  have hm : mean ([10, 10, 10, 10, 90] : List ℚ) = 26 := by
    unfold mean
    norm_num
  rw [hm]
  unfold stdGuard
  rw [if_neg (by norm_num)]
  norm_num

lemma rows5_point_not_anomalous {x : ℚ} (hx : ((x - 26 : ℚ) : ℝ) ^ 2 ≤ 4 * 1280) :
    ¬ anomalyFlag (zScore [10, 10, 10, 10, 90] x) := by
  rw [zscore_rows5]
  show ¬ (|((x - 26 : ℚ) : ℝ) / Real.sqrt 1280| > 2)
  exact not_lt.mpr (abs_div_sqrt_le_two (by norm_num) hx)

/-- Counterexample to C7 as stated: for the district history
[10, 10, 10, 10, 90] the claim (and the spec) expect the last record to
be flagged. With the code's sample std (ddof = 1) the variance is 1280,
so the last z-score is 64 / sqrt 1280, about 1.79, which does not
exceed 2: the last record is not flagged. -/
theorem rows5_last_not_flagged :
    ¬ ((detectRows rows5).map ARow.is_anomaly).getLastD True := by
  show ¬ anomalyFlag (zScore (peerScores rows5 "D") 90)
  rw [rows5_peers]
  exact rows5_point_not_anomalous (by push_cast; norm_num)

/-- C7 (amended): for the district history [10, 10, 10, 10, 90] no
record is flagged at all — the largest absolute z-score is
64 / sqrt 1280, about 1.79, below the strict two-sigma threshold. -/
theorem rows5_all_unflagged : ∀ a ∈ detectRows rows5, ¬ a.is_anomaly := by
  intro a ha
  obtain ⟨s, hs, rfl⟩ := List.mem_map.mp ha
  have hsd : s.district = "D" ∧ (s.stress_score = 10 ∨ s.stress_score = 90) := by
    simp only [rows5, List.mem_cons, List.not_mem_nil, or_false] at hs
    rcases hs with rfl | rfl | rfl | rfl | rfl <;> simp
  simp only [analyzeRow]
  rw [hsd.1, rows5_peers]
  rcases hsd.2 with h | h <;> rw [h]
  · exact rows5_point_not_anomalous (by push_cast; norm_num)
  · exact rows5_point_not_anomalous (by push_cast; norm_num)

/-- Witness for C7 at the last record of the example district. -/
theorem rows5_all_unflagged_witness :
    ¬ (ARow.is_anomaly (analyzeRow rows5 ⟨"D", 90⟩)) := by
  exact rows5_all_unflagged (analyzeRow rows5 ⟨"D", 90⟩)
    (List.mem_map_of_mem _ (by simp [rows5]))

/-! ## C9: in-place mutation of the input frames -/

/-- Counterexample to C9 as stated: `detect_anomalies` assigns
`df['z_score']` and `df['is_anomaly']` directly on the frame it was
passed, so after a call on a non-empty scored frame the caller's frame
is no longer the original scored table. -/
theorem detect_anomalies_mutates_input :
    (detect_anomalies_st [⟨"D", 10⟩]).2 ≠ Sum.inl [⟨"D", 10⟩] := by
  intro h
  unfold detect_anomalies_st detect_anomalies at h
  rw [if_neg (by decide)] at h
  cases h

/-- C9 (amended): `calculate_stress_index` (which copies its input) and
`generate_recommendations` (which only reads it) leave the caller's
frame unchanged; `detect_anomalies` instead writes the derived columns
into the frame passed to it and returns that same frame, so on every
non-empty input the upstream scored table is mutated into the analyzed
table. -/
theorem downstream_stage_effects :
    (∀ m : List MRow, (calculate_stress_index_st m).2 = m)
    ∧ (∀ df : List RRow, (generate_recommendations_st df).2 = df)
    ∧ (∀ d : List SRow, (detect_anomalies_st d).2 = detect_anomalies d)
    ∧ (∀ d : List SRow, d ≠ [] → (detect_anomalies_st d).2 ≠ Sum.inl d) := by
  refine ⟨fun m => rfl, fun df => rfl, fun d => rfl, ?_⟩
  intro d hd h
  unfold detect_anomalies_st detect_anomalies at h
  rw [if_neg (by simpa [List.isEmpty_iff] using hd)] at h
  cases h

/-- Witness for C9 at a concrete two-row frame. -/
theorem downstream_stage_effects_witness :
    (detect_anomalies_st [⟨"A", 1⟩, ⟨"A", 2⟩]).2 ≠ Sum.inl [⟨"A", 1⟩, ⟨"A", 2⟩] := by
  exact downstream_stage_effects.2.2.2 [⟨"A", 1⟩, ⟨"A", 2⟩] (by simp)

/-! ## C10: empty-input guards -/

/-- C10: on an empty input each of `calculate_stress_index` and
`detect_anomalies` returns its input frame unchanged (left summand: the
input schema, none of the derived columns added), and
`generate_recommendations` returns a bare `pd.DataFrame()` with no
columns at all (left summand `Unit`): the published output schemas are
not produced for empty input. -/
theorem empty_input_guards :
    calculate_stress_index [] = Sum.inl []
    ∧ detect_anomalies [] = Sum.inl []
    ∧ generate_recommendations [] = Sum.inl () :=
  ⟨rfl, rfl, rfl⟩

end AadharPulse
